import Mathlib

/-!
Verification of the ComfyUI-Animagine-Prompt node pack against its
natural-language specification.

The Python sources are shallowly embedded: file systems become functions
from paths to optional file contents, the pandas DataFrame becomes a record
of column names and rows, Python dictionaries become association lists,
Python exceptions become `Except String`, and the `random` module becomes an
abstract deterministic generator carrying a range proof.  Every definition
follows the corresponding source function line by line.
-/

/-! ## CSV side: `csv_handler.py` -/

/-- A row of a character CSV, restricted to the three columns the node reads. -/
structure Row where
  gender : String
  character : String
  copyright : String
  deriving DecidableEq, Repr

/-- Model of a `pandas.DataFrame` as produced by `pd.read_csv`. -/
structure DataFrame where
  columns : List String
  rows : List Row
  deriving DecidableEq, Repr

/-- What `pd.read_csv` finds at an existing path: either a parse failure or a frame. -/
inductive CsvFile where
  | unparseable : CsvFile
  | parsed : DataFrame → CsvFile
  deriving DecidableEq

/-- File system seen by the CSV handler: `none` means the path does not exist. -/
def CsvFS : Type := String → Option CsvFile

/-- `CSVHandler.__init__`: `current_data = None`, `cache = {}` (a Python dict,
modelled as an association list). -/
structure CSVHandler where
  current_data : Option DataFrame
  cache : List (String × DataFrame)
  deriving DecidableEq

/-- Python dict read `d[k]` / `k in d`, on the association-list model. -/
def alookup {α : Type} (k : String) : List (String × α) → Option α
  | [] => none
  | p :: rest => if p.1 = k then some p.2 else alookup k rest

/-- Python dict write `d[k] = v` on the association-list model. -/
def astore {α : Type} (k : String) (v : α) (l : List (String × α)) : List (String × α) :=
  (k, v) :: l.filter (fun p => p.1 ≠ k)

/-- `CSVHandler.REQUIRED_COLUMNS`. -/
def REQUIRED_COLUMNS : List String := ["GENDER", "CHARACTER", "COPYRIGHT"]

/-- `CSVHandler.validate_csv_structure`: `False` when the file is missing,
when `pd.read_csv` raises (the surrounding `except` returns `False`), or when
`missing_columns` is non-empty; `True` otherwise. -/
def validate_csv_structure (fs : CsvFS) (filepath : String) : Bool :=
  match fs filepath with
  | none => false
  | some CsvFile.unparseable => false
  | some (CsvFile.parsed df) =>
      (REQUIRED_COLUMNS.filter (fun c => !(df.columns.contains c))).isEmpty

/-- `CSVHandler.load_csv`: cache hit returns the cached frame unchanged;
otherwise validate, re-read, store in the cache and set `current_data`.
Every exception is caught and turned into `None` with the handler unchanged. -/
def load_csv (fs : CsvFS) (h : CSVHandler) (filepath : String) :
    Option DataFrame × CSVHandler :=
  match alookup filepath h.cache with
  | some df => (some df, h)
  | none =>
      if validate_csv_structure fs filepath then
        match fs filepath with
        | some (CsvFile.parsed df) =>
            (some df, { current_data := some df, cache := astore filepath df h.cache })
        | _ => (none, h)
      else (none, h)

/-- `DataFrame.iloc[i]` positional access: Python semantics, where a negative
`i` counts from the end and an out-of-range position raises `IndexError`
(modelled as `none`). -/
def pyIloc {α : Type} (l : List α) (i : Int) : Option α :=
  let j : Int := if i < 0 then (l.length : Int) + i else i
  if j < 0 then none else l[j.toNat]?

/-- `CSVHandler.get_entry`: `None` when nothing is loaded or `index >= len(data)`;
otherwise `iloc[index]` (an `IndexError` from a too-negative index, or a
`KeyError` from a missing required column, is caught and yields `None`). -/
def get_entry (h : CSVHandler) (index : Int) : Option Row :=
  match h.current_data with
  | none => none
  | some df =>
      if (df.rows.length : Int) ≤ index then none
      else
        match pyIloc df.rows index with
        | none => none
        | some row =>
            if REQUIRED_COLUMNS.all (fun c => df.columns.contains c) then some row
            else none

/-! ### Concrete CSV fixtures used by counterexamples and witnesses -/

/-- A one-row frame with exactly the required columns. -/
def sampleDF : DataFrame :=
  { columns := REQUIRED_COLUMNS, rows := [⟨"1girl", "hatsune miku", "vocaloid"⟩] }

/-- A second, different one-row frame. -/
def otherDF : DataFrame :=
  { columns := REQUIRED_COLUMNS, rows := [⟨"1boy", "kaito", "vocaloid"⟩] }

/-- A file system with no files at all. -/
def emptyFS : CsvFS := fun _ => none

/-- A file system holding one well-formed CSV at `"good.csv"`. -/
def goodFS : CsvFS := fun p => if p = "good.csv" then some (CsvFile.parsed sampleDF) else none

/-! ### Cache lemmas shared by the CSV claims -/

theorem alookup_nil {α : Type} (k : String) : alookup (α := α) k [] = none := rfl

theorem alookup_cons {α : Type} (k : String) (hd : String × α) (tl : List (String × α)) :
    alookup k (hd :: tl) = if hd.1 = k then some hd.2 else alookup k tl := rfl

theorem alookup_astore_self {α : Type} (k : String) (v : α) (l : List (String × α)) :
    alookup k (astore k v l) = some v := by
  simp [alookup, astore]

theorem alookup_filter_ne {α : Type} (p q : String) (hne : q ≠ p) (l : List (String × α)) :
    alookup p (l.filter (fun x => x.1 ≠ q)) = alookup p l := by
  induction l with
  | nil => rfl
  | cons hd tl ih =>
      by_cases hq : hd.1 = q
      · have hne2 : hd.1 ≠ p := by rw [hq]; exact hne
        rw [List.filter_cons_of_neg (by simp [hq]), ih, alookup_cons, if_neg hne2]
      · rw [List.filter_cons_of_pos (by simp [hq]), alookup_cons, alookup_cons, ih]

theorem alookup_astore_ne {α : Type} (p q : String) (v : α) (hne : q ≠ p)
    (l : List (String × α)) : alookup p (astore q v l) = alookup p l := by
  rw [astore, alookup_cons, if_neg hne]
  exact alookup_filter_ne p q hne l

/-- A cache hit returns the cached frame and leaves the handler untouched. -/
theorem load_csv_hit (fs : CsvFS) (h : CSVHandler) (p : String) (df : DataFrame)
    (hc : alookup p h.cache = some df) : load_csv fs h p = (some df, h) := by
  rw [load_csv, hc]

/-- `load_csv` never removes or overwrites an existing cache entry. -/
theorem load_csv_cache_mono (fs : CsvFS) (h : CSVHandler) (p q : String) (df : DataFrame)
    (hc : alookup p h.cache = some df) :
    alookup p ((load_csv fs h q).2).cache = some df := by
  rw [load_csv]
  split
  · exact hc
  · next hq =>
      split
      · split
        · next d _ =>
            have hne : q ≠ p := fun he => by rw [he, hc] at hq; cases hq
            show alookup p (astore q d h.cache) = some df
            rw [alookup_astore_ne p q d hne]
            exact hc
        · exact hc
      · exact hc

/-- A successful `load_csv` leaves the frame in the cache under its path. -/
theorem load_csv_success_cached (fs : CsvFS) (h h' : CSVHandler) (p : String) (df : DataFrame)
    (hl : load_csv fs h p = (some df, h')) : alookup p h'.cache = some df := by
  rw [load_csv] at hl
  split at hl
  · next d hd =>
      injection hl with h1 h2
      rw [← h2, hd]
      exact h1
  · next hq =>
      split at hl
      · split at hl
        · next d hfs =>
            injection hl with h1 h2
            rw [← h2]
            show alookup p (astore p d h.cache) = some df
            rw [alookup_astore_self]
            exact h1
        · exact absurd (congrArg Prod.fst hl) (by simp)
      · exact absurd (congrArg Prod.fst hl) (by simp)

/-- Replay of an arbitrary sequence of later `load_csv` calls. -/
def runCalls (calls : List (CsvFS × String)) (h : CSVHandler) : CSVHandler :=
  calls.foldl (fun acc c => (load_csv c.1 acc c.2).2) h

theorem runCalls_cache_mono (calls : List (CsvFS × String)) (h : CSVHandler) (p : String)
    (df : DataFrame) (hc : alookup p h.cache = some df) :
    alookup p (runCalls calls h).cache = some df := by
  induction calls generalizing h with
  | nil => exact hc
  | cons c rest ih =>
      exact ih _ (load_csv_cache_mono c.1 h p c.2 df hc)

theorem getElem?_isSome_iff {α : Type} (l : List α) (n : Nat) :
    l[n]?.isSome = true ↔ n < l.length := by
  constructor
  · intro h
    by_contra hn
    rw [List.getElem?_eq_none_iff.mpr (by omega)] at h
    simp at h
  · intro h
    cases hx : l[n]? with
    | none =>
        have := List.getElem?_eq_none_iff.mp hx
        omega
    | some a => rfl

/-- Membership/bounds behaviour of `iloc` positional access. -/
theorem pyIloc_isSome {α : Type} (l : List α) (i : Int) :
    (pyIloc l i).isSome = true ↔ (-(l.length : Int) ≤ i ∧ i < (l.length : Int)) := by
  simp only [pyIloc]
  by_cases hneg : i < 0
  · rw [if_pos hneg]
    by_cases hj : (l.length : Int) + i < 0
    · rw [if_pos hj]
      simp only [Option.isSome_none, Bool.false_eq_true, false_iff, not_and]
      omega
    · rw [if_neg hj, getElem?_isSome_iff]
      omega
  · rw [if_neg hneg, if_neg (by omega)]
    rw [getElem?_isSome_iff]
    omega

/-- Claim C2 counterexample: starting from a handler whose cache already holds
`"a.csv"`, the file at that path does not exist on disk and yet `load_csv`
returns a DataFrame rather than `None`, so the claim as stated (for every
filepath, missing file implies a `None` result) is false. -/
theorem C2_counterexample :
    emptyFS "a.csv" = none ∧
      (load_csv emptyFS { current_data := none, cache := [("a.csv", sampleDF)] } "a.csv").1
        = some sampleDF ∧
      (load_csv emptyFS { current_data := none, cache := [("a.csv", sampleDF)] } "a.csv").1
        ≠ none := by
  refine ⟨rfl, rfl, ?_⟩
  decide

/-- Claim C2 (amended): for every filepath that is not already in the cache,
`CSVHandler.load_csv` returns `None` and leaves the handler (in particular the
cache) unchanged whenever the file at that path does not exist, cannot be
parsed as CSV, or lacks any of the required columns GENDER, CHARACTER,
COPYRIGHT; otherwise it returns the parsed DataFrame and stores it in the
cache under that filepath (also setting `current_data` to it). -/
theorem C2_load_csv_validation (fs : CsvFS) (h : CSVHandler) (p : String)
    (hnc : alookup p h.cache = none) :
    ((fs p = none ∨ fs p = some CsvFile.unparseable ∨
        (∃ df, fs p = some (CsvFile.parsed df) ∧
          (REQUIRED_COLUMNS.filter (fun c => !(df.columns.contains c))).isEmpty = false)) →
      load_csv fs h p = (none, h)) ∧
    (∀ df, fs p = some (CsvFile.parsed df) →
      (REQUIRED_COLUMNS.filter (fun c => !(df.columns.contains c))).isEmpty = true →
      load_csv fs h p = (some df,
        { current_data := some df, cache := astore p df h.cache })) := by
  constructor
  · intro hbad
    have hv : validate_csv_structure fs p = false := by
      rcases hbad with h0 | h0 | ⟨df, h0, h1⟩
      · simp [validate_csv_structure, h0]
      · simp [validate_csv_structure, h0]
      · simp only [validate_csv_structure, h0]
        exact h1
    simp [load_csv, hnc, hv]
  · intro df hfs hcols
    have hv : validate_csv_structure fs p = true := by
      simp only [validate_csv_structure, hfs]
      exact hcols
    simp [load_csv, hnc, hv, hfs]

/-- Claim C2 witness: loading a fresh, well-formed CSV succeeds and caches it. -/
theorem C2_witness :
    load_csv goodFS { current_data := none, cache := [] } "good.csv"
      = (some sampleDF,
          { current_data := some sampleDF, cache := [("good.csv", sampleDF)] }) := by
  have h := (C2_load_csv_validation goodFS { current_data := none, cache := [] }
    "good.csv" rfl).2 sampleDF (by decide) (by decide)
  simpa [astore] using h

/-- Claim C7: after a successful `load_csv p`, every later `load_csv p` — after
any sequence of further `load_csv` calls and under any current file system
(the file may have been modified, corrupted or deleted) — returns the cached
DataFrame and leaves the handler unchanged: the CSV cache has no invalidation. -/
theorem C7_cache_never_invalidated (fs fs₂ : CsvFS) (h h₁ : CSVHandler) (p : String)
    (df : DataFrame) (hload : load_csv fs h p = (some df, h₁))
    (calls : List (CsvFS × String)) :
    load_csv fs₂ (runCalls calls h₁) p = (some df, runCalls calls h₁) :=
  load_csv_hit fs₂ _ p df
    (runCalls_cache_mono calls h₁ p df (load_csv_success_cached fs h h₁ p df hload))

/-- The handler state right after `C2_witness`'s successful load. -/
def loadedH : CSVHandler :=
  { current_data := some sampleDF, cache := [("good.csv", sampleDF)] }

/-- Claim C7 witness: after loading `"good.csv"` and then one more call for a
different path, re-requesting `"good.csv"` against an empty file system (the
file was deleted) still returns the cached frame. -/
theorem C7_witness :
    load_csv emptyFS (runCalls [(emptyFS, "b.csv")] loadedH) "good.csv"
      = (some sampleDF, runCalls [(emptyFS, "b.csv")] loadedH) :=
  C7_cache_never_invalidated goodFS emptyFS { current_data := none, cache := [] }
    loadedH "good.csv" sampleDF (by decide) [(emptyFS, "b.csv")]

/-- A handler with a one-row frame loaded, as left by a successful load. -/
def loadedOneRow : CSVHandler := { current_data := some sampleDF, cache := [] }

/-- Claim C8 counterexample: with one row loaded, the index `-1` lies outside
the bounds `[0, 1)` of the loaded data, yet `get_entry` returns a dictionary
(the last row, by Python negative indexing) instead of `None`. -/
theorem C8_counterexample :
    get_entry loadedOneRow (-1) = some ⟨"1girl", "hatsune miku", "vocaloid"⟩ ∧
      ¬ (0 ≤ (-1 : Int)) := by
  refine ⟨?_, by decide⟩
  decide

/-- Claim C8 (amended): `get_entry` returns a `{gender, character, copyright}`
dictionary exactly when CSV data is loaded and the index lies in
`[-len(data), len(data))` — Python negative positions count from the end — and
returns `None` for every index outside that range, as well as when no data is
loaded. -/
theorem C8_get_entry_bounds (h : CSVHandler) (index : Int) :
    (h.current_data = none → get_entry h index = none) ∧
    (∀ df, h.current_data = some df →
      REQUIRED_COLUMNS.all (fun c => df.columns.contains c) = true →
      ((get_entry h index).isSome = true ↔
        (-(df.rows.length : Int) ≤ index ∧ index < (df.rows.length : Int)))) := by
  constructor
  · intro h0
    rw [get_entry, h0]
  · intro df h0 hcols
    simp only [get_entry, h0]
    by_cases hub : (df.rows.length : Int) ≤ index
    · rw [if_pos hub]
      simp only [Option.isSome_none, Bool.false_eq_true, false_iff, not_and]
      omega
    · rw [if_neg hub]
      cases hp : pyIloc df.rows index with
      | none =>
          have h2 : ¬ (-(df.rows.length : Int) ≤ index ∧ index < (df.rows.length : Int)) := by
            intro hcontra
            have h3 := (pyIloc_isSome df.rows index).mpr hcontra
            rw [hp] at h3
            simp at h3
          simp [h2]
      | some row =>
          have h3 := (pyIloc_isSome df.rows index).mp (by rw [hp]; rfl)
          simp [hcols, h3]
          intro x hx
          simpa using List.all_eq_true.mp hcols x hx

/-- Claim C8 witness: index 0 on a loaded one-row frame yields a dictionary. -/
theorem C8_witness : (get_entry loadedOneRow 0).isSome = true :=
  ((C8_get_entry_bounds loadedOneRow 0).2 sampleDF rfl (by decide)).mpr (by decide)

/-- Claim C9: on a `load_csv` cache hit the handler is returned unchanged — in
particular `current_data` is untouched — so a following `get_entry` still reads
rows from the last CSV actually loaded from disk, not from the file whose
cached frame was just returned. -/
theorem C9_cache_hit_frame (fs : CsvFS) (h : CSVHandler) (p : String) (df : DataFrame)
    (hc : alookup p h.cache = some df) :
    load_csv fs h p = (some df, h) ∧
      ((load_csv fs h p).2).current_data = h.current_data ∧
      ∀ idx, get_entry (load_csv fs h p).2 idx = get_entry h idx := by
  have hh := load_csv_hit fs h p df hc
  refine ⟨hh, ?_, ?_⟩
  · rw [hh]
  · intro idx
    rw [hh]

/-- Handler after loading `"a.csv"` and then `"b.csv"` from disk: both cached,
`current_data` holds the frame of `"b.csv"`. -/
def switchedH : CSVHandler :=
  { current_data := some otherDF, cache := [("a.csv", sampleDF), ("b.csv", otherDF)] }

/-- Claim C9 witness: switching back to the previously loaded `"a.csv"` returns
its cached frame but `get_entry` still reads from `"b.csv"`'s data. -/
theorem C9_witness :
    load_csv emptyFS switchedH "a.csv" = (some sampleDF, switchedH) ∧
      get_entry (load_csv emptyFS switchedH "a.csv").2 0 = get_entry switchedH 0 := by
  have h := C9_cache_hit_frame emptyFS switchedH "a.csv" sampleDF (by decide)
  exact ⟨h.1, h.2.2 0⟩

/-! ## Prompt assembly: `animagine_node.py` -/

/-- `AnimaginePromptNode.DEFAULT_NEGATIVE_TAGS`. -/
def DEFAULT_NEGATIVE_TAGS : List String :=
  ["low quality", "worst quality", "blurry", "bad anatomy",
   "bad hands", "text", "error", "missing fingers",
   "extra digit", "fewer digits", "cropped", "jpeg artifacts",
   "signature", "watermark", "username", "artist name"]

/-- `AnimaginePromptNode._build_good_tags`: append each non-empty tag, then
join with `", "`. -/
def build_good_tags (quality_good score_good : String) : String :=
  String.intercalate ", "
    ((if quality_good.isEmpty then [] else [quality_good]) ++
     (if score_good.isEmpty then [] else [score_good]))

/-- `AnimaginePromptNode._build_bad_tags`: same shape as the good tags. -/
def build_bad_tags (quality_bad score_bad : String) : String :=
  String.intercalate ", "
    ((if quality_bad.isEmpty then [] else [quality_bad]) ++
     (if score_bad.isEmpty then [] else [score_bad]))

/-- One entry of `state_manager.csv_history`.  The history is loaded from a
user-editable JSON file, so an entry may lack the `"use_count"` key; `none`
models that missing key.  The timestamp fields are omitted (no claim reads
them). -/
structure HistEntry where
  use_count : Option Nat
  entry_count : Nat
  deriving DecidableEq

/-- `StateManager.add_csv_to_history`: inserts a fresh entry, or bumps
`use_count` on an existing one.  Reading `["use_count"]` on an entry that
lacks the key raises `KeyError`, and nothing in this method catches it
(`_save_csv_history` catches only its own file I/O). -/
def add_csv_to_history (hist : List (String × HistEntry)) (filepath : String)
    (entry_count : Nat) : Except String (List (String × HistEntry)) :=
  match alookup filepath hist with
  | none => Except.ok (astore filepath ⟨some 1, entry_count⟩ hist)
  | some e =>
      match e.use_count with
      | some n => Except.ok (astore filepath ⟨some (n + 1), entry_count⟩ hist)
      | none => Except.error "KeyError: use_count"

/-- The mutable state reachable from `AnimaginePromptNode.generate_prompt`:
its `csv_handler`, its `last_csv_path`, and the state manager's CSV history.
(`state_manager.current_state` and the logger only feed the excluded
persistence/logging plumbing, which catches its own I/O errors.) -/
structure NodeState where
  csv_handler : CSVHandler
  last_csv_path : Option String
  csv_history : List (String × HistEntry)
  deriving DecidableEq

/-- `AnimaginePromptNode._get_csv_entry`: reload when the path changed (adding
the file to the history when the load succeeded — a step that can raise),
then look the row up in `current_data` and format it as
`"gender, character, copyright"`.  The method has no `try`, so an exception
from `add_csv_to_history` propagates. -/
def get_csv_entry (fs : CsvFS) (st : NodeState) (csv_path : String) (index : Int) :
    Except String (Option String × NodeState) :=
  let afterLoad : Except String NodeState :=
    if st.last_csv_path ≠ some csv_path then
      let r := load_csv fs st.csv_handler csv_path
      match r.1 with
      | some df =>
          match add_csv_to_history st.csv_history csv_path df.rows.length with
          | Except.error e => Except.error e
          | Except.ok hist =>
              Except.ok { csv_handler := r.2, last_csv_path := some csv_path,
                          csv_history := hist }
      | none =>
          Except.ok { csv_handler := r.2, last_csv_path := some csv_path,
                      csv_history := st.csv_history }
    else Except.ok st
  match afterLoad with
  | Except.error e => Except.error e
  | Except.ok st₁ =>
      Except.ok ((get_entry st₁.csv_handler index).map
        (fun e => e.gender ++ ", " ++ e.character ++ ", " ++ e.copyright), st₁)

/-- The `f"year {year}"` tag. -/
def yearTag (year : Int) : String := s!"year {year}"

/-- `AnimaginePromptNode.generate_prompt`.  The body's only raising step is
`_get_csv_entry` (via `add_csv_to_history`); the `except Exception as e`
handler logs and then `raise e`s, so an error passes through unchanged —
modelled by the error arm of the outer match. -/
def generate_prompt (fs : CsvFS) (st : NodeState)
    (positive_prompt negative_prompt : String)
    (use_csv : Bool) (csv_path : String) (csv_index : Int)
    (use_rating : Bool) (rating : String)
    (use_good_tags : Bool) (quality_good score_good : String)
    (use_bad_tags : Bool) (quality_bad score_bad : String)
    (use_year : Bool) (year : Int) :
    Except String ((String × String) × NodeState) :=
  match (if use_csv && !csv_path.isEmpty then get_csv_entry fs st csv_path csv_index
         else Except.ok (none, st)) with
  | Except.error e => Except.error e
  | Except.ok (csv_entry, st₁) =>
      let positive_parts : List String :=
        (match csv_entry with
         | some entry => if entry.isEmpty then [] else [entry]
         | none => []) ++
        (if use_rating then [rating] else []) ++
        (if positive_prompt.isEmpty then [] else [positive_prompt]) ++
        (if use_good_tags then
           (let good := build_good_tags quality_good score_good
            if good.isEmpty then [] else [good])
         else []) ++
        (if use_bad_tags then
           (let bad := build_bad_tags quality_bad score_bad
            if bad.isEmpty then [] else [bad])
         else []) ++
        (if use_year then [yearTag year] else [])
      let negative_parts : List String :=
        DEFAULT_NEGATIVE_TAGS ++
          (if negative_prompt.isEmpty then [] else [negative_prompt])
      let final_positive :=
        String.intercalate ", " (positive_parts.filter (fun part => !part.isEmpty))
      let final_negative :=
        String.intercalate ", " (negative_parts.filter (fun part => !part.isEmpty))
      Except.ok ((final_positive, final_negative), st₁)

/-- `MultilineTextInput.output_text`: the dynamicprompts generator is external
code, passed in as `gen`; `sysRand` is the random seed drawn when `seed = -1`.
The `except` handler converts any generator exception into an error string. -/
def output_text (gen : Int → String → Except String String) (sysRand : Nat)
    (text : String) (use_dynamic_prompts : Bool) (seed : Int) : String :=
  if !use_dynamic_prompts then text
  else
    let actual_seed : Int := if seed = -1 then (sysRand : Int) else seed
    match gen actual_seed text with
    | Except.ok processed => processed
    | Except.error e => s!"Dynamic Prompts Error: {e}\nOriginal text: {text}"

/-- `_build_good_tags` equals the claim's reading: the `", "`-join of the
non-empty tags among `quality_good` then `score_good`. -/
theorem build_good_spec (quality_good score_good : String) :
    build_good_tags quality_good score_good
      = String.intercalate ", " ([quality_good, score_good].filter (fun s => !s.isEmpty)) := by
  by_cases h1 : quality_good.isEmpty <;> by_cases h2 : score_good.isEmpty <;>
    simp [build_good_tags, h1, h2]

/-- `_build_bad_tags` equals the claim's reading likewise. -/
theorem build_bad_spec (quality_bad score_bad : String) :
    build_bad_tags quality_bad score_bad
      = String.intercalate ", " ([quality_bad, score_bad].filter (fun s => !s.isEmpty)) := by
  by_cases h1 : quality_bad.isEmpty <;> by_cases h2 : score_bad.isEmpty <;>
    simp [build_bad_tags, h1, h2]

/-- The outcome of the CSV lookup as the claim describes it ("the lookup
succeeds"): the formatted entry, or `none` if the lookup raised or missed. -/
def lookup_first (fs : CsvFS) (st : NodeState) (csv_path : String) (csv_index : Int) :
    Option String :=
  match get_csv_entry fs st csv_path csv_index with
  | Except.ok r => r.1
  | Except.error _ => none

/-- The positive prompt exactly as claim C1 words it: the non-empty enabled
parts, in the fixed order CSV entry (when `use_csv` is true, `csv_path` is
non-empty and the lookup succeeds), rating, base prompt, good tags, bad tags,
`year {year}`. -/
def claimPositiveParts (fs : CsvFS) (st : NodeState)
    (positive_prompt : String) (use_csv : Bool) (csv_path : String) (csv_index : Int)
    (use_rating : Bool) (rating : String)
    (use_good_tags : Bool) (quality_good score_good : String)
    (use_bad_tags : Bool) (quality_bad score_bad : String)
    (use_year : Bool) (year : Int) : List String :=
  ((if use_csv && !csv_path.isEmpty then
      (match lookup_first fs st csv_path csv_index with
       | some entry => [entry]
       | none => [])
    else []) ++
   (if use_rating then [rating] else []) ++
   [positive_prompt] ++
   (if use_good_tags then
      [String.intercalate ", " ([quality_good, score_good].filter (fun s => !s.isEmpty))]
    else []) ++
   (if use_bad_tags then
      [String.intercalate ", " ([quality_bad, score_bad].filter (fun s => !s.isEmpty))]
    else []) ++
   (if use_year then [yearTag year] else [])).filter (fun s => !s.isEmpty)

/-- Claim C1: whenever `generate_prompt` returns, its first output is the
`", "`-join of exactly the non-empty enabled parts in the fixed order — CSV
entry (when enabled and the lookup succeeds), rating, base positive prompt,
good tags (`quality_good` then `score_good` joined by `", "`), bad tags, and
`year {year}` — and its second output is the `", "`-join of the 16
`DEFAULT_NEGATIVE_TAGS` followed by `negative_prompt` when non-empty. -/
theorem C1_generate_prompt_outputs
    (fs : CsvFS) (st : NodeState) (positive_prompt negative_prompt : String)
    (use_csv : Bool) (csv_path : String) (csv_index : Int)
    (use_rating : Bool) (rating : String)
    (use_good_tags : Bool) (quality_good score_good : String)
    (use_bad_tags : Bool) (quality_bad score_bad : String)
    (use_year : Bool) (year : Int)
    (P N : String) (st' : NodeState)
    (hrun : generate_prompt fs st positive_prompt negative_prompt use_csv csv_path csv_index
        use_rating rating use_good_tags quality_good score_good use_bad_tags quality_bad
        score_bad use_year year = Except.ok ((P, N), st')) :
    DEFAULT_NEGATIVE_TAGS.length = 16 ∧
    P = String.intercalate ", " (claimPositiveParts fs st positive_prompt use_csv csv_path
          csv_index use_rating rating use_good_tags quality_good score_good use_bad_tags
          quality_bad score_bad use_year year) ∧
    N = String.intercalate ", "
          (DEFAULT_NEGATIVE_TAGS ++
            (if negative_prompt.isEmpty then [] else [negative_prompt])) := by
  rw [generate_prompt] at hrun
  split at hrun
  · exact absurd hrun (by simp)
  · next csv_entry st₁ heq =>
      dsimp only at hrun
      injection hrun with h1
      injection h1 with hPN hst
      injection hPN with hP hN
      have hseg1 :
          (match csv_entry with
           | some entry => if entry.isEmpty then [] else [entry]
           | none => ([] : List String)).filter (fun s => !s.isEmpty) =
          ((if use_csv && !csv_path.isEmpty then
              (match lookup_first fs st csv_path csv_index with
               | some entry => [entry]
               | none => [])
            else []) : List String).filter (fun s => !s.isEmpty) := by
        cases hguard : (use_csv && !csv_path.isEmpty) with
        | false =>
            rw [hguard] at heq
            simp only [Bool.false_eq_true, if_false] at heq
            injection heq with heq1
            injection heq1 with hce hst1
            rw [← hce]
            simp
        | true =>
            rw [hguard] at heq
            simp only [if_true] at heq
            have hlk : lookup_first fs st csv_path csv_index = csv_entry := by
              rw [lookup_first, heq]
            simp only [if_true, hlk]
            cases csv_entry with
            | none => rfl
            | some entry => by_cases h : entry.isEmpty <;> simp [h]
      have hseg3 :
          ((if positive_prompt.isEmpty then [] else [positive_prompt]) :
              List String).filter (fun s => !s.isEmpty)
            = [positive_prompt].filter (fun s => !s.isEmpty) := by
        by_cases h : positive_prompt.isEmpty <;> simp [h]
      have hseg4 :
          ((if use_good_tags then
              (let good := build_good_tags quality_good score_good
               if good.isEmpty then [] else [good])
            else []) : List String).filter (fun s => !s.isEmpty)
          = ((if use_good_tags then
               [String.intercalate ", "
                 ([quality_good, score_good].filter (fun s => !s.isEmpty))]
              else []) : List String).filter (fun s => !s.isEmpty) := by
        cases use_good_tags
        · rfl
        · simp only [if_true]
          rw [← build_good_spec]
          by_cases h : (build_good_tags quality_good score_good).isEmpty <;> simp [h]
      have hseg5 :
          ((if use_bad_tags then
              (let bad := build_bad_tags quality_bad score_bad
               if bad.isEmpty then [] else [bad])
            else []) : List String).filter (fun s => !s.isEmpty)
          = ((if use_bad_tags then
               [String.intercalate ", "
                 ([quality_bad, score_bad].filter (fun s => !s.isEmpty))]
              else []) : List String).filter (fun s => !s.isEmpty) := by
        cases use_bad_tags
        · rfl
        · simp only [if_true]
          rw [← build_bad_spec]
          by_cases h : (build_bad_tags quality_bad score_bad).isEmpty <;> simp [h]
      have hnegseg :
          ((if negative_prompt.isEmpty then [] else [negative_prompt]) :
              List String).filter (fun s => !s.isEmpty)
            = (if negative_prompt.isEmpty then [] else [negative_prompt]) := by
        by_cases h : negative_prompt.isEmpty <;> simp [h]
      refine ⟨rfl, ?_, ?_⟩
      · rw [← hP]
        congr 1
        rw [claimPositiveParts]
        simp only [List.filter_append]
        rw [hseg1, hseg3, hseg4, hseg5]
      · rw [← hN]
        congr 1
        simp only [List.filter_append]
        rw [hnegseg]
        congr 1

/-- A file system holding one well-formed CSV at `"x.csv"`. -/
def xFS : CsvFS := fun p => if p = "x.csv" then some (CsvFile.parsed sampleDF) else none

/-- A freshly constructed node: empty handler, no last path, empty history. -/
def freshState : NodeState :=
  { csv_handler := { current_data := none, cache := [] }, last_csv_path := none,
    csv_history := [] }

/-- Node state after the history JSON was hand-edited so that the entry for
`"x.csv"` lacks its `"use_count"` key. -/
def histBadState : NodeState :=
  { csv_handler := { current_data := none, cache := [] }, last_csv_path := none,
    csv_history := [("x.csv", ⟨none, 1⟩)] }

/-- Claim C1 witness: a full successful run with every feature enabled. -/
theorem C1_witness :
    DEFAULT_NEGATIVE_TAGS.length = 16 ∧
    "1girl, hatsune miku, vocaloid, safe, scenic view, masterpiece, high score, low quality, bad score, year 2024"
      = String.intercalate ", " (claimPositiveParts xFS freshState "scenic view" true "x.csv"
          0 true "safe" true "masterpiece" "high score" true "low quality" "bad score"
          true 2024) ∧
    "low quality, worst quality, blurry, bad anatomy, bad hands, text, error, missing fingers, extra digit, fewer digits, cropped, jpeg artifacts, signature, watermark, username, artist name, ugly"
      = String.intercalate ", "
          (DEFAULT_NEGATIVE_TAGS ++ (if ("ugly" : String).isEmpty then [] else ["ugly"])) :=
  C1_generate_prompt_outputs xFS freshState "scenic view" "ugly" true "x.csv" 0 true "safe"
    true "masterpiece" "high score" true "low quality" "bad score" true 2024
    "1girl, hatsune miku, vocaloid, safe, scenic view, masterpiece, high score, low quality, bad score, year 2024"
    "low quality, worst quality, blurry, bad anatomy, bad hands, text, error, missing fingers, extra digit, fewer digits, cropped, jpeg artifacts, signature, watermark, username, artist name, ugly"
    { csv_handler := { current_data := some sampleDF, cache := [("x.csv", sampleDF)] },
      last_csv_path := some "x.csv", csv_history := [("x.csv", ⟨some 1, 1⟩)] }
    (by rfl)

/-- Claim C6 counterexample: with a corrupted CSV-history entry on disk (its
`"use_count"` key missing), `generate_prompt` with `use_csv` enabled hits the
uncaught `KeyError` in `add_csv_to_history`; its `except` handler executes
`raise e`, so the exception propagates to the caller instead of being turned
into an error-string output — the claim that no exception ever propagates is
false. -/
theorem C6_counterexample :
    generate_prompt xFS histBadState "" "" true "x.csv" 0 false "" false "" "" false "" ""
      false 2024 = Except.error "KeyError: use_count" := by rfl

/-- Claim C6 (amended): `MultilineTextInput.output_text` (and likewise the two
wildcard loaders) recovers from an internal exception by catching it and
returning an error string, but `AnimaginePromptNode.generate_prompt` catches,
logs, and re-raises: any exception raised inside its body propagates to the
caller unchanged. -/
theorem C6_exception_behaviour
    (gen : Int → String → Except String String) (sysRand : Nat) (text : String) (seed : Int)
    (eg : String)
    (fs : CsvFS) (st : NodeState)
    (positive_prompt negative_prompt csv_path rating quality_good score_good quality_bad
      score_bad : String)
    (csv_index year : Int) (use_rating use_good_tags use_bad_tags use_year : Bool)
    (e : String)
    (hgen : gen (if seed = -1 then (sysRand : Int) else seed) text = Except.error eg)
    (hpath : csv_path.isEmpty = false)
    (hfail : get_csv_entry fs st csv_path csv_index = Except.error e) :
    output_text gen sysRand text true seed
        = s!"Dynamic Prompts Error: {eg}\nOriginal text: {text}" ∧
    generate_prompt fs st positive_prompt negative_prompt true csv_path csv_index use_rating
        rating use_good_tags quality_good score_good use_bad_tags quality_bad score_bad
        use_year year = Except.error e := by
  constructor
  · rw [output_text]
    simp only [Bool.not_true, Bool.false_eq_true, if_false]
    rw [hgen]
  · rw [generate_prompt]
    have hguard : (true && !csv_path.isEmpty) = true := by simp [hpath]
    simp only [hguard, if_true, hfail]

/-- Claim C6 witness: a failing generator yields the error-string output from
`output_text`, while the corrupted-history state makes `generate_prompt`
propagate its `KeyError`. -/
theorem C6_witness :
    output_text (fun _ _ => Except.error "boom") 7 "hello" true 5
        = s!"Dynamic Prompts Error: boom\nOriginal text: hello" ∧
    generate_prompt xFS histBadState "p" "n" true "x.csv" 0 true "safe" true "m" "h" true
        "l" "b" true 2024 = Except.error "KeyError: use_count" :=
  C6_exception_behaviour (fun _ _ => Except.error "boom") 7 "hello" 5 "boom" xFS
    histBadState "p" "n" "x.csv" "safe" "m" "h" "l" "b" 0 2024 true true true true
    "KeyError: use_count" rfl rfl (by rfl)

/-! ## Wildcards side: `wildcards_node.py` -/

/-- The pieces of `os.path` the wildcards module calls, plus the module's
directory.  These are host-environment functions, passed in as parameters. -/
structure OsEnv where
  normpath : String → String
  isabs : String → Bool
  joinPath : String → String → String
  basename : String → String
  scriptDir : String

/-- Python's seeded `random`: an abstract deterministic generator.
`randbelow s n` is the index `random.choice` picks from a list of length `n`
after `random.seed(s)`; the proof field records that it is in range. -/
structure Prng where
  randbelow : Int → Nat → Nat
  randbelow_lt : ∀ s n, 0 < n → randbelow s n < n

/-- A text file on disk: its modification time and its raw lines. -/
structure TextFile where
  mtime : Nat
  content : List String
  deriving DecidableEq

/-- File system seen by the text-file loaders. -/
def TextFS : Type := String → Option TextFile

/-- One entry of the module-level `text_file_cache` dict. -/
structure CacheEntry where
  lines : List String
  mod_time : Nat
  deriving DecidableEq

/-- The module-level `text_file_cache`. -/
def TextCache : Type := List (String × CacheEntry)

/-- Python `str.strip()` on the character-list model. -/
def pyStrip (s : String) : String :=
  String.mk (((s.data.dropWhile Char.isWhitespace).reverse.dropWhile
    Char.isWhitespace).reverse)

/-- Python `str.rstrip()` on the character-list model. -/
def pyRstrip (s : String) : String :=
  String.mk ((s.data.reverse.dropWhile Char.isWhitespace).reverse)

/-- Python `s.startswith(pre)` on the character-list model. -/
def pyStartsWith (s pre : String) : Bool := pre.data.isPrefixOf s.data

/-- `[line.rstrip() for line in f if line.strip()]`: keep the lines that are
non-blank after stripping, right-stripped. -/
def filterLines (raw : List String) : List String :=
  (raw.filter (fun line => !(pyStrip line).isEmpty)).map pyRstrip

/-- The cache block shared verbatim by `TextFileLoader.load_text_line`
(lines 152–163) and `MultiWildcardLoader._load_wildcard_line` (lines 401–412):
reuse the cached lines when the stored `mod_time` equals the file's current
modification time, otherwise re-read the file and overwrite the entry. -/
def cachedOrRead (cache : TextCache) (path : String) (f : TextFile) :
    List String × TextCache :=
  match alookup path cache with
  | some ce =>
      if ce.mod_time = f.mtime then (ce.lines, cache)
      else
        let lines := filterLines f.content
        (lines, astore path ⟨lines, f.mtime⟩ cache)
  | none =>
      let lines := filterLines f.content
      (lines, astore path ⟨lines, f.mtime⟩ cache)

/-- `random.seed(seed); random.choice(lines)`. -/
def pyRandChoice (rng : Prng) (seed : Int) (lines : List String) : String :=
  lines.getD (rng.randbelow seed lines.length) ""

/-- `f"Error: Line index {i} out of range (0-{n-1})"`. -/
def outOfRangeMsg (line_index : Int) (n : Nat) : String :=
  let upper := n - 1
  s!"Error: Line index {line_index} out of range (0-{upper})"

/-- `TextFileLoader.load_text_line`.  `timeMs` stands for
`int(time.time() * 1000)`.  The body is total in this model, so the trailing
`except` (which would return `f"Error loading file: ..."`) is unreachable. -/
def load_text_line (os : OsEnv) (rng : Prng) (fs : TextFS) (cache : TextCache)
    (timeMs : Nat) (file_path : String) (line_index seed : Int) : String × TextCache :=
  let path := os.normpath (pyStrip file_path)
  match fs path with
  | none => (s!"Error: File not found at {path}", cache)
  | some f =>
      let lc := cachedOrRead cache path f
      let lines := lc.1
      if lines.isEmpty then ("Error: File is empty", lc.2)
      else if line_index = -1 then
        let rseed : Int := if seed = -1 then ((timeMs % 2 ^ 32 : Nat) : Int) else seed
        (pyRandChoice rng rseed lines, lc.2)
      else if line_index < 0 ∨ (lines.length : Int) ≤ line_index then
        (outOfRangeMsg line_index lines.length, lc.2)
      else (lines.getD line_index.toNat "", lc.2)

/-- `MultiWildcardLoader._resolve_file_path`: try the path as given (when
absolute), then relative to the script directory, then under
`example_files/`, else return the original path. -/
def resolve_file_path (os : OsEnv) (fs : TextFS) (file_path : String) : Option String :=
  if file_path.isEmpty || (pyStrip file_path).isEmpty then none
  else
    let fp := pyStrip file_path
    if os.isabs fp && (fs fp).isSome then some fp
    else
      let relative_path := os.joinPath os.scriptDir fp
      if (fs relative_path).isSome then some relative_path
      else
        let example_files_path :=
          os.joinPath (os.joinPath os.scriptDir "example_files") fp
        if (fs example_files_path).isSome then some example_files_path
        else some fp

/-- `f"Error: Line index {i} out of range (0-{n-1}) for {basename}"`. -/
def outOfRangeForMsg (line_index : Int) (n : Nat) (bn : String) : String :=
  let upper := n - 1
  s!"Error: Line index {line_index} out of range (0-{upper}) for {bn}"

/-- `MultiWildcardLoader._load_wildcard_line`: resolve, then the same cache
block and selection logic as `load_text_line`, with its own error strings. -/
def load_wildcard_line (os : OsEnv) (rng : Prng) (fs : TextFS) (cache : TextCache)
    (timeMs : Nat) (file_path : String) (line_index seed : Int) : String × TextCache :=
  match resolve_file_path os fs file_path with
  | none => ("Error: Empty file path", cache)
  | some rp =>
      let resolved_path := os.normpath rp
      match fs resolved_path with
      | none => (s!"Error: File not found at {resolved_path}", cache)
      | some f =>
          let lc := cachedOrRead cache resolved_path f
          let lines := lc.1
          if lines.isEmpty then
            let bn := os.basename resolved_path
            (s!"Error: File {bn} is empty", lc.2)
          else if line_index = -1 then
            let rseed : Int := if seed = -1 then ((timeMs % 2 ^ 32 : Nat) : Int) else seed
            (pyRandChoice rng rseed lines, lc.2)
          else if line_index < 0 ∨ (lines.length : Int) ≤ line_index then
            (outOfRangeForMsg line_index lines.length (os.basename resolved_path), lc.2)
          else (lines.getD line_index.toNat "", lc.2)

/-- Scanner for `re.findall(r'\{([^}]+)\}', s)`: at each `'{'`, greedily take
the characters up to the next `'}'`; a non-empty group followed by `'}'` is a
match and scanning resumes after it, otherwise the engine advances one
character.  `fuel` bounds the recursion; `s.length` always suffices. -/
def phAux : Nat → List Char → List (List Char)
  | 0, _ => []
  | _ + 1, [] => []
  | fuel + 1, c :: rest =>
      if c = '{' then
        let content := rest.takeWhile (fun d => d ≠ '}')
        match rest.dropWhile (fun d => d ≠ '}') with
        | '}' :: after2 =>
            if content.isEmpty then phAux fuel rest else content :: phAux fuel after2
        | _ => phAux fuel rest
      else phAux fuel rest

/-- `re.findall(r'\{([^}]+)\}', s)` as a list of capture groups. -/
def pyFindall (s : String) : List String :=
  (phAux s.data.length s.data).map String.mk

/-- Python `s.replace(old, new, 1)` on the character-list model: replace the
leftmost occurrence only. -/
def replaceFirstAux (old new : List Char) : List Char → List Char
  | [] => if old.isEmpty then new else []
  | c :: rest =>
      if old.isPrefixOf (c :: rest) then new ++ (c :: rest).drop old.length
      else c :: replaceFirstAux old new rest

/-- Python `s.replace(old, new, 1)`. -/
def pyReplaceFirst (s old new : String) : String :=
  String.mk (replaceFirstAux old.data new.data s.data)

/-- The `for i, filename in enumerate(placeholders)` loop of
`_process_template_mode`, threading `result_text` and the cache. -/
def templateLoop (os : OsEnv) (rng : Prng) (fs : TextFS) (timeMs : Nat) (seed : Int) :
    List String → Nat → String → TextCache → String × TextCache
  | [], _, result_text, cache => (result_text, cache)
  | filename :: restPh, i, result_text, cache =>
      let wildcard_seed : Int := if seed = -1 then -1 else seed + i
      let lc := load_wildcard_line os rng fs cache timeMs filename (-1) wildcard_seed
      let placeholder := "\x7b" ++ filename ++ "\x7d"
      templateLoop os rng fs timeMs seed restPh (i + 1)
        (pyReplaceFirst result_text placeholder lc.1) lc.2

/-- `MultiWildcardLoader._process_template_mode`. -/
def process_template_mode (os : OsEnv) (rng : Prng) (fs : TextFS) (cache : TextCache)
    (timeMs : Nat) (template_text : String) (seed : Int) :
    (String × String) × TextCache :=
  let placeholders := pyFindall template_text
  if placeholders.isEmpty then ((template_text, template_text), cache)
  else
    let rc := templateLoop os rng fs timeMs seed placeholders 0 template_text cache
    ((rc.1, rc.1), rc.2)

/-- One wildcard slot's inputs (`wildcard_i_path`, `_enabled`, `_line_index`),
with the host's defaults already applied. -/
structure SlotCfg where
  path : String
  enabled : Bool
  line_index : Int
  deriving DecidableEq

/-- The five slots of `MultiWildcardLoader`. -/
structure SlotArgs where
  s1 : SlotCfg
  s2 : SlotCfg
  s3 : SlotCfg
  s4 : SlotCfg
  s5 : SlotCfg

/-- `kwargs.get(f"wildcard_{i}_...")` for `i` in 1..5. -/
def SlotArgs.slot (a : SlotArgs) : Nat → SlotCfg
  | 1 => a.s1
  | 2 => a.s2
  | 3 => a.s3
  | 4 => a.s4
  | _ => a.s5

/-- The `for i in range(1, 6)` loop of `_process_slots_mode`: skip a slot that
is disabled or has a blank path, otherwise load a line; the `if/else` at the
end appends the result in both branches (errors included). -/
def slotsLoop (os : OsEnv) (rng : Prng) (fs : TextFS) (timeMs : Nat) (seed : Int)
    (args : SlotArgs) : List Nat → List String → TextCache → List String × TextCache
  | [], acc, cache => (acc, cache)
  | i :: restIdx, acc, cache =>
      let cfg := args.slot i
      if !cfg.enabled || cfg.path.isEmpty || (pyStrip cfg.path).isEmpty then
        slotsLoop os rng fs timeMs seed args restIdx acc cache
      else
        let wildcard_seed : Int := if seed = -1 then -1 else seed + i
        let lc := load_wildcard_line os rng fs cache timeMs cfg.path cfg.line_index
          wildcard_seed
        let acc2 := if !(pyStartsWith lc.1 "Error:") then acc ++ [lc.1] else acc ++ [lc.1]
        slotsLoop os rng fs timeMs seed args restIdx acc2 lc.2

/-- `MultiWildcardLoader._process_slots_mode`. -/
def process_slots_mode (os : OsEnv) (rng : Prng) (fs : TextFS) (cache : TextCache)
    (timeMs : Nat) (separator : String) (seed : Int) (args : SlotArgs) :
    (String × String) × TextCache :=
  let rc := slotsLoop os rng fs timeMs seed args [1, 2, 3, 4, 5] [] cache
  if rc.1.isEmpty then (("No wildcards loaded", "No wildcards loaded"), rc.2)
  else
    let combined_text := String.intercalate separator rc.1
    ((combined_text, combined_text), rc.2)

/-- The two modes of `MultiWildcardLoader.load_multiple_wildcards`. -/
inductive WMode where
  | slots : WMode
  | template : WMode
  deriving DecidableEq

/-- `MultiWildcardLoader.load_multiple_wildcards`: dispatch on the mode.  The
body is total in this model, so the trailing `except` is unreachable. -/
def load_multiple_wildcards (os : OsEnv) (rng : Prng) (fs : TextFS) (cache : TextCache)
    (timeMs : Nat) (mode : WMode) (template_text separator : String) (seed : Int)
    (args : SlotArgs) : (String × String) × TextCache :=
  match mode with
  | WMode.template => process_template_mode os rng fs cache timeMs template_text seed
  | WMode.slots => process_slots_mode os rng fs cache timeMs separator seed args

/-- `random.choice` returns a member of a non-empty list. -/
theorem pyRandChoice_mem (rng : Prng) (seed : Int) (lines : List String) (h : lines ≠ []) :
    pyRandChoice rng seed lines ∈ lines := by
  rw [pyRandChoice]
  have hlt := rng.randbelow_lt seed lines.length (List.length_pos.mpr h)
  rw [List.getD_eq_getElem lines "" hlt]
  exact List.getElem_mem hlt

/-- Claim C3: for an existing file whose (cached-or-read) line list is
non-empty, `load_text_line` with `line_index` in `[0, n)` returns exactly the
line at that index; with `line_index = -1` and a seed `≥ 0` it returns a
member of the list, independently of the current time (reproducible for a
fixed seed); and with any other `line_index` it returns the
"out of range" error string. -/
theorem C3_load_text_line (os : OsEnv) (rng : Prng) (fs : TextFS) (cache : TextCache)
    (timeMs : Nat) (file_path : String) (f : TextFile)
    (lines : List String) (cache' : TextCache)
    (hfile : fs (os.normpath (pyStrip file_path)) = some f)
    (hlc : cachedOrRead cache (os.normpath (pyStrip file_path)) f = (lines, cache'))
    (hne : lines ≠ []) :
    (∀ i : Int, ∀ seed : Int, 0 ≤ i → i < (lines.length : Int) →
        (load_text_line os rng fs cache timeMs file_path i seed).1
          = lines.getD i.toNat "") ∧
    (∀ seed : Int, 0 ≤ seed →
        (load_text_line os rng fs cache timeMs file_path (-1) seed).1 ∈ lines ∧
        (∀ timeMs' : Nat,
          (load_text_line os rng fs cache timeMs' file_path (-1) seed).1
            = (load_text_line os rng fs cache timeMs file_path (-1) seed).1)) ∧
    (∀ i : Int, ∀ seed : Int, i ≠ -1 → (i < 0 ∨ (lines.length : Int) ≤ i) →
        (load_text_line os rng fs cache timeMs file_path i seed).1
          = outOfRangeMsg i lines.length) := by
  have hred : ∀ (tm : Nat) (li sd : Int), load_text_line os rng fs cache tm file_path li sd
      = (if lines.isEmpty then ("Error: File is empty", cache')
         else if li = -1 then
           (pyRandChoice rng (if sd = -1 then ((tm % 2 ^ 32 : Nat) : Int) else sd) lines,
            cache')
         else if li < 0 ∨ (lines.length : Int) ≤ li then
           (outOfRangeMsg li lines.length, cache')
         else (lines.getD li.toNat "", cache')) := by
    intro tm li sd
    rw [load_text_line]
    simp only [hfile, hlc]
  have hempty : lines.isEmpty = false := by
    cases lines with
    | nil => exact absurd rfl hne
    | cons a l => rfl
  refine ⟨?_, ?_, ?_⟩
  · intro i seed h0 hlt
    rw [hred timeMs i seed, if_neg (by simp [hempty]), if_neg (show ¬ i = -1 by omega),
      if_neg (show ¬ (i < 0 ∨ (lines.length : Int) ≤ i) by omega)]
  · intro seed hseed
    have hs : ¬ (seed = -1) := by omega
    constructor
    · rw [hred timeMs (-1) seed, if_neg (by simp [hempty]), if_pos rfl]
      exact pyRandChoice_mem rng _ lines hne
    · intro timeMs2
      rw [hred timeMs (-1) seed, hred timeMs2 (-1) seed]
      simp [hempty, hs]
  · intro i seed hne1 hout
    rw [hred timeMs i seed, if_neg (by simp [hempty]), if_neg hne1, if_pos hout]

/-- A simple POSIX-style `os.path` for witnesses. -/
def idOs : OsEnv :=
  { normpath := fun s => s, isabs := fun s => pyStartsWith s "/",
    joinPath := fun a b => a ++ "/" ++ b, basename := fun s => s, scriptDir := "/sd" }

/-- A concrete in-range generator for witnesses. -/
def modRng : Prng :=
  { randbelow := fun s n => s.toNat % n,
    randbelow_lt := fun s n h => Nat.mod_lt _ h }

/-- A file system with one text file at `"/w.txt"`: a blank middle line and a
trailing space to exercise the strip/rstrip filtering. -/
def wFS : TextFS := fun p => if p = "/w.txt" then some ⟨3, ["alpha", " ", "beta "]⟩ else none

/-- Claim C3 witness: on `"/w.txt"` (whose kept lines are
`["alpha", "beta"]`), index 1 picks `"beta"`, index `-1` with seed 5 picks a
member reproducibly across times, and index 2 yields the range error. -/
theorem C3_witness :
    (load_text_line idOs modRng wFS [] 100 "/w.txt" 1 7).1 = "beta" ∧
    (load_text_line idOs modRng wFS [] 100 "/w.txt" (-1) 5).1 ∈ ["alpha", "beta"] ∧
    (load_text_line idOs modRng wFS [] 999 "/w.txt" (-1) 5).1
        = (load_text_line idOs modRng wFS [] 100 "/w.txt" (-1) 5).1 ∧
    (load_text_line idOs modRng wFS [] 100 "/w.txt" 2 7).1 = outOfRangeMsg 2 2 := by
  have h := C3_load_text_line idOs modRng wFS [] 100 "/w.txt" ⟨3, ["alpha", " ", "beta "]⟩
    ["alpha", "beta"] [("/w.txt", ⟨["alpha", "beta"], 3⟩)] rfl rfl (by decide)
  exact ⟨h.1 1 7 (by decide) (by decide), (h.2.1 5 (by decide)).1,
    (h.2.1 5 (by decide)).2 999, h.2.2 2 7 (by decide) (by decide)⟩

/-- Claim C4: the loaders reuse the cached line list iff an entry for the path
exists with stored `mod_time` equal to the file's current modification time
(first conjunct; the cache is then untouched); in every other case they
re-read the file — keeping only the lines that are non-blank after stripping,
right-stripped — and overwrite the cache entry with the new list and the new
modification time (second and third conjuncts).  The last two conjuncts tie
`load_text_line` and `load_wildcard_line` to this shared cache block: for an
existing file, the cache each returns is exactly the block's. -/
theorem C4_cache_invalidation (os : OsEnv) (rng : Prng) (fs : TextFS) (cache : TextCache)
    (timeMs : Nat) (path file_path : String) (f : TextFile) (li seed : Int) :
    (∀ ce, alookup path cache = some ce → ce.mod_time = f.mtime →
        cachedOrRead cache path f = (ce.lines, cache)) ∧
    ((¬ ∃ ce, alookup path cache = some ce ∧ ce.mod_time = f.mtime) →
        cachedOrRead cache path f
          = (filterLines f.content,
             astore path ⟨filterLines f.content, f.mtime⟩ cache)) ∧
    filterLines f.content
      = (f.content.filter (fun line => !(pyStrip line).isEmpty)).map pyRstrip ∧
    (fs (os.normpath (pyStrip file_path)) = some f →
        (load_text_line os rng fs cache timeMs file_path li seed).2
          = (cachedOrRead cache (os.normpath (pyStrip file_path)) f).2) ∧
    (∀ rp, resolve_file_path os fs file_path = some rp → fs (os.normpath rp) = some f →
        (load_wildcard_line os rng fs cache timeMs file_path li seed).2
          = (cachedOrRead cache (os.normpath rp) f).2) := by
  refine ⟨?_, ?_, rfl, ?_, ?_⟩
  · intro ce hce hmt
    simp only [cachedOrRead, hce]
    rw [if_pos hmt]
  · intro hno
    cases halo : alookup path cache with
    | none => simp only [cachedOrRead, halo]
    | some ce =>
        simp only [cachedOrRead, halo]
        rw [if_neg (fun hmt => hno ⟨ce, halo, hmt⟩)]
  · intro hf
    rw [load_text_line]
    simp only [hf]
    split
    · rfl
    · split
      · rfl
      · split <;> rfl
  · intro rp hrp hf
    rw [load_wildcard_line]
    simp only [hrp, hf]
    split
    · rfl
    · split
      · rfl
      · split <;> rfl

/-- Claim C4 witness: a matching `mod_time` reuses the cached list and leaves
the cache alone; a changed `mod_time` re-reads (stripping the blank line,
right-stripping the rest) and overwrites the entry. -/
theorem C4_witness :
    cachedOrRead [("/w.txt", ⟨["cached line"], 3⟩)] "/w.txt" ⟨3, ["alpha"]⟩
        = (["cached line"], [("/w.txt", ⟨["cached line"], 3⟩)]) ∧
    cachedOrRead [("/w.txt", ⟨["cached line"], 3⟩)] "/w.txt" ⟨4, [" alpha ", ""]⟩
        = ([" alpha"], [("/w.txt", ⟨[" alpha"], 4⟩)]) := by
  constructor
  · exact (C4_cache_invalidation idOs modRng wFS [("/w.txt", ⟨["cached line"], 3⟩)] 0
      "/w.txt" "" ⟨3, ["alpha"]⟩ 0 0).1 ⟨["cached line"], 3⟩ rfl rfl
  · exact (C4_cache_invalidation idOs modRng wFS [("/w.txt", ⟨["cached line"], 3⟩)] 0
      "/w.txt" "" ⟨4, [" alpha ", ""]⟩ 0 0).2.1
      (by
        rintro ⟨ce, hce, hmt⟩
        have hce2 : some (CacheEntry.mk ["cached line"] 3) = some ce := hce
        injection hce2 with h
        rw [← h] at hmt
        exact absurd hmt (by decide))

/-- Every capture group that the `\{([^}]+)\}` scanner collects is non-empty,
contains no `'}'`, and occurs brace-wrapped inside the scanned text. -/
theorem phAux_sound (fuel : Nat) :
    ∀ (cs name : List Char), name ∈ phAux fuel cs →
      name ≠ [] ∧ '}' ∉ name ∧ ('{' :: (name ++ ['}'])) <:+: cs := by
  induction fuel with
  | zero =>
      intro cs name h
      simp [phAux] at h
  | succ fuel ih =>
      intro cs name h
      cases cs with
      | nil => simp [phAux] at h
      | cons c rest =>
          simp only [phAux] at h
          by_cases hc : c = '{'
          · rw [if_pos hc] at h
            split at h
            · next after2 heq =>
                by_cases hcon : (rest.takeWhile (fun d => d ≠ '}')).isEmpty
                · rw [if_pos hcon] at h
                  obtain ⟨h1, h2, h3⟩ := ih rest name h
                  exact ⟨h1, h2, List.infix_cons h3⟩
                · rw [if_neg hcon] at h
                  rcases List.mem_cons.mp h with hname | hmem
                  · subst hname
                    refine ⟨?_, ?_, ?_⟩
                    · intro he
                      rw [he] at hcon
                      exact hcon rfl
                    · intro hmem2
                      have hp := List.mem_takeWhile_imp hmem2
                      simp at hp
                    · have hsplit := List.takeWhile_append_dropWhile
                        (p := fun d : Char => d ≠ '}') (l := rest)
                      rw [heq] at hsplit
                      have hpre : ('{' :: (rest.takeWhile (fun d => d ≠ '}') ++ ['}'])) <+:
                          ('{' :: (rest.takeWhile (fun d => d ≠ '}') ++ '}' :: after2)) := by
                        refine ⟨after2, ?_⟩
                        simp
                      have hgoal := hpre.isInfix
                      rw [hsplit] at hgoal
                      rw [hc]
                      exact hgoal
                  · obtain ⟨h1, h2, h3⟩ := ih after2 name hmem
                    have hsuf : after2 <:+ rest := by
                      have hsplit := List.takeWhile_append_dropWhile
                        (p := fun d : Char => d ≠ '}') (l := rest)
                      rw [heq] at hsplit
                      rw [← hsplit]
                      exact (List.suffix_cons '}' after2).trans (List.suffix_append _ _)
                    exact ⟨h1, h2, List.infix_cons (h3.trans hsuf.isInfix)⟩
            · next heq =>
                obtain ⟨h1, h2, h3⟩ := ih rest name h
                exact ⟨h1, h2, List.infix_cons h3⟩
          · rw [if_neg hc] at h
            obtain ⟨h1, h2, h3⟩ := ih rest name h
            exact ⟨h1, h2, List.infix_cons h3⟩

/-- `pyFindall` on strings: every collected placeholder name is non-empty,
`'}'`-free, and `"{name}"` occurs in the template. -/
theorem pyFindall_sound (template name : String) (h : name ∈ pyFindall template) :
    name ≠ "" ∧ '}' ∉ name.data ∧ ("\x7b" ++ name ++ "\x7d").data <:+: template.data := by
  obtain ⟨cs, hcs, hmk⟩ := List.mem_map.mp h
  obtain ⟨h1, h2, h3⟩ := phAux_sound _ _ _ hcs
  subst hmk
  refine ⟨?_, ?_, ?_⟩
  · intro he
    apply h1
    have hd := congrArg String.data he
    simpa using hd
  · simpa using h2
  · have hd : ("\x7b" ++ String.mk cs ++ "\x7d").data = '{' :: (cs ++ ['}']) := by
      simp [String.data_append]
    rw [hd]
    exact h3

/-- The substitution pass exactly as claim C5 words it: fold over the
placeholders in order of appearance, replacing the first remaining occurrence
of `"{name}"` with a randomly selected line from the file named inside it,
the seed offset by the placeholder's position when the seed is not `-1`. -/
def claimTemplateFold (os : OsEnv) (rng : Prng) (fs : TextFS) (timeMs : Nat) (seed : Int)
    (template_text : String) (cache : TextCache) : String × TextCache :=
  (pyFindall template_text).enum.foldl
    (fun acc x =>
      let wseed : Int := if seed = -1 then -1 else seed + x.1
      let lc := load_wildcard_line os rng fs acc.2 timeMs x.2 (-1) wseed
      (pyReplaceFirst acc.1 ("\x7b" ++ x.2 ++ "\x7d") lc.1, lc.2))
    (template_text, cache)

/-- The source's indexed loop is the claim's enumerated fold. -/
theorem templateLoop_eq_foldl (os : OsEnv) (rng : Prng) (fs : TextFS) (timeMs : Nat)
    (seed : Int) :
    ∀ (ph : List String) (i : Nat) (r : String) (c : TextCache),
      templateLoop os rng fs timeMs seed ph i r c
        = (ph.enumFrom i).foldl
            (fun acc x =>
              let wseed : Int := if seed = -1 then -1 else seed + x.1
              let lc := load_wildcard_line os rng fs acc.2 timeMs x.2 (-1) wseed
              (pyReplaceFirst acc.1 ("\x7b" ++ x.2 ++ "\x7d") lc.1, lc.2))
            (r, c) := by
  intro ph
  induction ph with
  | nil => intro i r c; rfl
  | cons a rest ih =>
      intro i r c
      rw [templateLoop]
      rw [show List.enumFrom i (a :: rest) = (i, a) :: List.enumFrom (i + 1) rest from rfl]
      rw [List.foldl_cons]
      exact ih (i + 1) _ _

/-- Claim C5: a template with no `\{([^}]+)\}` match is returned completely
unchanged; every collected placeholder is a brace-wrapped substring, collected
in order; and with placeholders present the output is the claim's enumerated
substitution fold (first remaining occurrence replaced, seed offset by
position when the seed is not `-1`). -/
theorem C5_template_substitution (os : OsEnv) (rng : Prng) (fs : TextFS) (cache : TextCache)
    (timeMs : Nat) (template_text : String) (seed : Int) :
    (pyFindall template_text = [] →
        process_template_mode os rng fs cache timeMs template_text seed
          = ((template_text, template_text), cache)) ∧
    (∀ name ∈ pyFindall template_text,
        name ≠ "" ∧ '}' ∉ name.data ∧
          ("\x7b" ++ name ++ "\x7d").data <:+: template_text.data) ∧
    (pyFindall template_text ≠ [] →
        process_template_mode os rng fs cache timeMs template_text seed
          = (((claimTemplateFold os rng fs timeMs seed template_text cache).1,
              (claimTemplateFold os rng fs timeMs seed template_text cache).1),
             (claimTemplateFold os rng fs timeMs seed template_text cache).2)) := by
  refine ⟨?_, ?_, ?_⟩
  · intro hempty
    simp [process_template_mode, hempty]
  · intro name hname
    exact pyFindall_sound template_text name hname
  · intro hne
    have hempty2 : (pyFindall template_text).isEmpty = false := by
      cases hpf : pyFindall template_text with
      | nil => exact absurd hpf hne
      | cons a l => rfl
    simp only [process_template_mode, hempty2, Bool.false_eq_true, if_false]
    rw [templateLoop_eq_foldl]
    rfl

/-- A file system holding one wildcard file under the script directory. -/
def tFS : TextFS := fun p => if p = "/sd/colors.txt" then some ⟨1, ["red", "blue"]⟩ else none

/-- Claim C5 witness: a placeholder-free template is returned unchanged, and
`"a {colors.txt} b"` has its placeholder replaced by a line of the file
(resolved relative to the script directory), caching the lines. -/
theorem C5_witness :
    process_template_mode idOs modRng tFS [] 50 "no placeholders here" 4
        = (("no placeholders here", "no placeholders here"), []) ∧
    process_template_mode idOs modRng tFS [] 50 "a \x7bcolors.txt\x7d b" 4
        = (("a red b", "a red b"),
           [("/sd/colors.txt", ⟨["red", "blue"], 1⟩)]) := by
  constructor
  · exact (C5_template_substitution idOs modRng tFS [] 50 "no placeholders here" 4).1
      (by decide)
  · have h := (C5_template_substitution idOs modRng tFS [] 50 "a \x7bcolors.txt\x7d b" 4).2.2
      (by decide)
    rw [h]
    rfl

/-- The slot results exactly as claim C10 words them: one result string per
enabled slot with a non-blank path, in slot order, errors contributed exactly
like successful lines. -/
def claimSlotResults (os : OsEnv) (rng : Prng) (fs : TextFS) (timeMs : Nat) (seed : Int)
    (args : SlotArgs) : List Nat → TextCache → List String × TextCache
  | [], cache => ([], cache)
  | i :: restIdx, cache =>
      let cfg := args.slot i
      if cfg.enabled && !(pyStrip cfg.path).isEmpty then
        let wseed : Int := if seed = -1 then -1 else seed + i
        let lc := load_wildcard_line os rng fs cache timeMs cfg.path cfg.line_index wseed
        let rc := claimSlotResults os rng fs timeMs seed args restIdx lc.2
        (lc.1 :: rc.1, rc.2)
      else claimSlotResults os rng fs timeMs seed args restIdx cache

/-- The source's skip condition (`not enabled or not path or not path.strip()`)
is the negation of "enabled with a non-blank path". -/
theorem slots_cond (cfg : SlotCfg) :
    (!cfg.enabled || cfg.path.isEmpty || (pyStrip cfg.path).isEmpty)
      = !(cfg.enabled && !(pyStrip cfg.path).isEmpty) := by
  cases he : cfg.enabled <;> by_cases hp : cfg.path.isEmpty <;>
    by_cases hs : (pyStrip cfg.path).isEmpty <;> simp [he, hp, hs]
  all_goals
    rw [String.isEmpty_iff] at hp
    rw [hp] at hs
    exact absurd hs (by decide)

/-- The source's slots loop — whose error-check `if/else` appends in both
branches — equals the claim-side unconditional collection. -/
theorem slotsLoop_eq (os : OsEnv) (rng : Prng) (fs : TextFS) (timeMs : Nat) (seed : Int)
    (args : SlotArgs) :
    ∀ (idxs : List Nat) (acc : List String) (cache : TextCache),
      slotsLoop os rng fs timeMs seed args idxs acc cache
        = (acc ++ (claimSlotResults os rng fs timeMs seed args idxs cache).1,
           (claimSlotResults os rng fs timeMs seed args idxs cache).2) := by
  intro idxs
  induction idxs with
  | nil =>
      intro acc cache
      simp [slotsLoop, claimSlotResults]
  | cons i rest ih =>
      intro acc cache
      simp only [slotsLoop, claimSlotResults, slots_cond (args.slot i)]
      cases hcond : ((args.slot i).enabled && !(pyStrip (args.slot i).path).isEmpty) with
      | true =>
          simp only [Bool.not_true, Bool.false_eq_true, if_false, if_true, ite_self]
          rw [ih]
          simp [List.append_assoc]
      | false =>
          simp only [Bool.not_false, if_true, Bool.false_eq_true, if_false]
          exact ih acc cache

/-- Claim C10: in slots mode `load_multiple_wildcards` is the slots pass; the
two returned strings are always identical; and the output is the
separator-join of exactly one result per enabled slot with a non-blank path,
in slot order 1 through 5, error results included like successes — or
`"No wildcards loaded"` for both outputs when no slot qualifies. -/
theorem C10_slots_mode (os : OsEnv) (rng : Prng) (fs : TextFS) (cache : TextCache)
    (timeMs : Nat) (template_text separator : String) (seed : Int) (args : SlotArgs) :
    load_multiple_wildcards os rng fs cache timeMs WMode.slots template_text separator seed
        args = process_slots_mode os rng fs cache timeMs separator seed args ∧
    (process_slots_mode os rng fs cache timeMs separator seed args).1.1
      = (process_slots_mode os rng fs cache timeMs separator seed args).1.2 ∧
    process_slots_mode os rng fs cache timeMs separator seed args
      = (let rc := claimSlotResults os rng fs timeMs seed args [1, 2, 3, 4, 5] cache
         if rc.1.isEmpty then (("No wildcards loaded", "No wildcards loaded"), rc.2)
         else ((String.intercalate separator rc.1, String.intercalate separator rc.1),
               rc.2)) := by
  refine ⟨rfl, ?_, ?_⟩
  · simp only [process_slots_mode]
    split
    · rfl
    · rfl
  · simp only [process_slots_mode,
      slotsLoop_eq os rng fs timeMs seed args [1, 2, 3, 4, 5] [] cache, List.nil_append]
